import Mathlib

/-!
Shallow embedding of the course-enrollment and content-unit core of the
geli e-learning API, translated from
`src/api/src/controllers/CourseController.ts`,
`src/api/src/controllers/UnitController.ts` and
`src/api/src/models/units/FileUnit.ts`.

Mongoose documents are modelled as Lean structures; ObjectId references are
modelled as their string representation; the promise pipelines of the
controllers are modelled as total functions from the loaded documents to an
explicit result type whose constructors record how each pipeline resolves
(saved document, unsaved `toObject` response, `undefined` resolution, or a
thrown error).  Filesystem deletion (`fs.unlink(path, () => {})`) is
modelled as a recorded attempt paired with the outcome an oracle
`fs : String → Bool` assigns to the path; the empty callback in the source
discards that outcome, so no definition ever branches on it.
-/

namespace Geli

/-- `user.profile` of the shared `IUser` model. -/
structure Profile where
  firstName : String
  lastName : String
deriving DecidableEq, Repr

/-- The acting user as supplied by the authentication layer. -/
structure User where
  _id : String
  uid : String
  profile : Profile
  role : String
deriving DecidableEq, Repr

/-- A whitelist entry (`WhitelistUser` model): normalized identity triple. -/
structure WhitelistUser where
  firstName : String
  lastName : String
  uid : String
deriving DecidableEq, Repr

/-- A content unit as it appears inside a populated lecture of a course
read.  Only the `code-kata` discriminator matters to the read-path
projection in `getCourse`; every other discriminator is carried opaquely. -/
inductive CUnit where
  | codeKata (_id : String) (code : Option String)
  | other (_id : String) (t : String)
deriving DecidableEq, Repr

/-- A lecture with its `units` array populated, as produced by the
`populate` chain of `getCourse`. -/
structure PopulatedLecture where
  _id : String
  units : List CUnit
deriving DecidableEq, Repr

/-- The `Course` mongoose document.  `students` and `teachers` hold user
ids; `whitelist` holds the course's whitelist entries (the
`WhitelistUser.find(course.whitelist)` lookup of the controller is modelled
as this list). -/
structure Course where
  _id : String
  active : Bool
  enrollType : String
  accessKey : Option String
  whitelist : List WhitelistUser
  students : List String
  teachers : List String
  courseAdmin : String
  lectures : List PopulatedLecture
deriving DecidableEq, Repr

/-- The two `errorCodes` used by `enrollStudent`
(`errorCodes.course.notOnWhitelist.code` and
`errorCodes.course.accessKey.code`); the codes file is outside the given
sources, so the two distinct codes are modelled as an enumeration. -/
inductive ErrorCode where
  | notOnWhitelist
  | accessKey
deriving DecidableEq, Repr

/-- How the `enrollStudent` promise pipeline resolves. -/
inductive EnrollResult where
  /-- `throw new NotFoundError()` -/
  | notFound
  /-- `throw new ForbiddenError(code)` -/
  | forbidden (code : ErrorCode)
  /-- the student was pushed and `course.save()` ran; the response is the
  saved course object -/
  | saved (course : Course)
  /-- `course.toObject()` was returned without saving -/
  | course (course : Course)
  /-- the whitelist branch resolved with `undefined` (its inner callback
  returns no value) -/
  | resolvedUndefined
deriving DecidableEq, Repr

/-- How the `leaveStudent` promise pipeline resolves. -/
inductive LeaveResult where
  | notFound
  | saved (course : Course)
  | course (course : Course)
deriving DecidableEq, Repr

/-- ASCII lowering of one character, as `String.prototype.toLowerCase`
acts on the profile names in play. -/
def lowerChar (c : Char) : Char :=
  if 65 ≤ c.toNat ∧ c.toNat ≤ 90 then Char.ofNat (c.toNat + 32) else c

/-- JavaScript `s.toLowerCase()` (restricted to ASCII case mapping). -/
def toLowerCase (s : String) : String :=
  String.mk (s.data.map lowerChar)

/-- JavaScript `Array.prototype.indexOf`: first index of `x`, `-1` when
absent. -/
def jsIndexOf : List String → String → Int
  | [], _ => -1
  | a :: as, x =>
    if a = x then 0
    else
      let r := jsIndexOf as x
      if r < 0 then -1 else r + 1

/-- JavaScript `Array.prototype.splice(start, 1)`: the start index is
clamped (`start < 0` counts from the end, floored at `0`), then one element
at that position, if any, is removed. -/
def jsSpliceRemoveOne (xs : List String) (start : Int) : List String :=
  let s : Nat := if start < 0 then (max ((xs.length : Int) + start) 0).toNat
                 else min start.toNat xs.length
  xs.take s ++ xs.drop (s + 1)

/-- JavaScript truthiness of `course.accessKey` (an optional string field:
missing and empty strings are falsy). -/
def accessKeyTruthy (course : Course) : Bool :=
  match course.accessKey with
  | some k => k ≠ ""
  | none => false

/-- The filter applied to the course's whitelist entries inside the
whitelist branch of `enrollStudent`. -/
def whitelistFilter (wUsers : List WhitelistUser) (currentUser : User) :
    List WhitelistUser :=
  wUsers.filter (fun e =>
    e.firstName == toLowerCase currentUser.profile.firstName
    && e.lastName == toLowerCase currentUser.profile.lastName
    && e.uid == currentUser.uid)

/-- Lines 411–417 of `CourseController.ts`: push the acting user when
absent and save, otherwise answer with the unchanged course object. -/
def membershipStep (course : Course) (currentUser : User) : EnrollResult :=
  if jsIndexOf course.students currentUser._id < 0 then
    EnrollResult.saved
      { course with students := course.students ++ [currentUser._id] }
  else
    EnrollResult.course course

/-- `CourseController.enrollStudent` on a loaded course (`Course.findById`
result) and the request body's `accessKey`.  The whitelist branch
`return WhitelistUser.find(...).then(...)` leaves the outer callback, so on
a whitelist match the pipeline resolves with `undefined` and the membership
step below it is never reached. -/
def enrollStudent (courseOpt : Option Course) (dataAccessKey : Option String)
    (currentUser : User) : EnrollResult :=
  match courseOpt with
  | none => EnrollResult.notFound
  | some course =>
    if course.enrollType = "whitelist" then
      if (whitelistFilter course.whitelist currentUser).length ≤ 0 then
        EnrollResult.forbidden ErrorCode.notOnWhitelist
      else
        EnrollResult.resolvedUndefined
    else if accessKeyTruthy course ∧ course.accessKey ≠ dataAccessKey then
      EnrollResult.forbidden ErrorCode.accessKey
    else
      membershipStep course currentUser

/-- `CourseController.leaveStudent` on a loaded course: the source tests
`index !== 0` and then calls `course.students.splice(index, 1)`. -/
def leaveStudent (courseOpt : Option Course) (currentUser : User) :
    LeaveResult :=
  match courseOpt with
  | none => LeaveResult.notFound
  | some course =>
    let index := jsIndexOf course.students currentUser._id
    if index ≠ 0 then
      LeaveResult.saved
        { course with students := jsSpliceRemoveOne course.students index }
    else
      LeaveResult.course course

/-! ## Course read path (`getCourses`, `getCourse`) -/

/-- The course object shape sent by `getCourses`: `toObject` output whose
`courseAdmin` field may have been deleted by the student projection. -/
structure CourseObject where
  _id : String
  active : Bool
  enrollType : String
  courseAdmin : Option String
  students : List String
  teachers : List String
  lectures : List PopulatedLecture
deriving DecidableEq, Repr

/-- `course.toObject()` for the list endpoint. -/
def Course.toObject (c : Course) : CourseObject :=
  { _id := c._id, active := c.active, enrollType := c.enrollType,
    courseAdmin := some c.courseAdmin, students := c.students,
    teachers := c.teachers, lectures := c.lectures }

/-- The `$or` alternatives assembled by `userReadConditions` for a
non-admin user. -/
def userReadConditionsOr (currentUser : User) (c : Course) : Bool :=
  if currentUser.role = "student" then c.students.contains currentUser._id
  else c.teachers.contains currentUser._id || c.courseAdmin == currentUser._id

/-- `userReadConditions` as a predicate on a course document: admins match
everything; students additionally require `active = true`. -/
def userReadConditions (currentUser : User) (c : Course) : Bool :=
  if currentUser.role = "admin" then true
  else
    (if currentUser.role = "student" then c.active else true)
    && userReadConditionsOr currentUser c

/-- The conditions of the `getCourses` query: `userReadConditions`, with
`{enrollType: 'free'}` and `{enrollType: 'accesskey'}` pushed onto the
`$or` list whenever that list exists (every non-admin). -/
def getCoursesCond (currentUser : User) (c : Course) : Bool :=
  if currentUser.role = "admin" then true
  else
    (if currentUser.role = "student" then c.active else true)
    && (userReadConditionsOr currentUser c
        || c.enrollType == "free" || c.enrollType == "accesskey")

/-- The per-course projection of `getCourses`: for a student the
`courseAdmin` field is deleted and `students` is filtered to entries whose
id equals the current user's id. -/
def getCourses (db : List Course) (currentUser : User) : List CourseObject :=
  (db.filter (fun c => getCoursesCond currentUser c)).map (fun course =>
    let courseObject := Course.toObject course
    if currentUser.role = "student" then
      { courseObject with
        courseAdmin := none,
        students := courseObject.students.filter
          (fun student => student == currentUser._id) }
    else
      courseObject)

/-- Lines 225–231 of `CourseController.ts`: while rendering a course, a
`code-kata` unit loses its `code` payload when the current user is a
student; every other unit is passed through. -/
def projectUnit (currentUser : User) (u : CUnit) : CUnit :=
  match u with
  | CUnit.codeKata i code =>
    if currentUser.role = "student" then CUnit.codeKata i none
    else CUnit.codeKata i code
  | CUnit.other i t => CUnit.other i t

/-- `CourseController.getCourse`: find the course matching
`userReadConditions` and the requested id, apply the code-kata projection
to every unit of every lecture, and answer with the resulting object;
`none` models the thrown `NotFoundError`.  The stored list `db` is only
read — the projection builds the response and nothing is saved. -/
def getCourse (db : List Course) (id : String) (currentUser : User) :
    Option Course :=
  match db.find? (fun c => userReadConditions currentUser c && c._id == id) with
  | none => none
  | some course =>
    some { course with
      lectures := course.lectures.map (fun lecture =>
        { lecture with units := lecture.units.map (projectUnit currentUser) }) }

/-! ## Unit lifecycle (`deleteUnit`, `FileUnit` hooks) -/

/-- One `{path, name, alias, size}` record of a `FileUnit`'s `files` array
(`alias` is a reserved word here, hence `fileAlias`). -/
structure FileRecord where
  path : String
  name : String
  fileAlias : String
  size : Nat
deriving DecidableEq, Repr

/-- A `FileUnit` document. -/
structure FileUnitDoc where
  _id : String
  fileUnitType : String
  files : List FileRecord
deriving DecidableEq, Repr

/-- A `Lecture` document: `units` holds unit-id references. -/
structure Lecture where
  _id : String
  units : List String
deriving DecidableEq, Repr

/-- The persistent state touched by `deleteUnit`. -/
structure UnitDb where
  units : List FileUnitDoc
  lectures : List Lecture
deriving DecidableEq, Repr

/-- `fileUnitSchema.pre('remove')`: `fs.unlink` every recorded file path;
the `() => {}` callback discards each outcome, so the attempts are only
recorded (paired with the outcome the filesystem oracle `fs` assigns). -/
def fileUnitPreRemove (fs : String → Bool) : List FileRecord →
    List (String × Bool)
  | [] => []
  | f :: rest => (f.path, fs f.path) :: fileUnitPreRemove fs rest

/-- `fileUnitSchema.path('files').set`: walk the current `files` array and
`fs.unlink` every file whose `name` is absent from the incoming list,
again discarding the outcomes. -/
def setterDeletions (fs : String → Bool) : List FileRecord →
    List FileRecord → List (String × Bool)
  | [], _ => []
  | f :: rest, newFiles =>
    if newFiles.any (fun newFile => newFile.name == f.name) then
      setterDeletions fs rest newFiles
    else
      (f.path, fs f.path) :: setterDeletions fs rest newFiles

/-- The whole `files` setter: best-effort deletions for dropped names,
then the field takes the incoming list (`return newFiles;`) — the setter
has no failure channel towards its caller. -/
def filesSetter (fs : String → Bool) (oldFiles newFiles : List FileRecord) :
    List (String × Bool) × List FileRecord :=
  (setterDeletions fs oldFiles newFiles, newFiles)

/-- `Unit.findById` of `deleteUnit`. -/
def findUnit (db : UnitDb) (id : String) : Option FileUnitDoc :=
  db.units.find? (fun u => u._id == id)

/-- `Lecture.update({}, {$pull: {units: id}})`: a mongoose `update` call
without `multi: true` updates only the first document matching the filter,
and the empty filter matches every lecture — so the pull is applied to the
first lecture of the collection only. -/
def lectureUpdatePull (lectures : List Lecture) (id : String) : List Lecture :=
  match lectures with
  | [] => []
  | l :: rest => { l with units := l.units.filter (fun x => x ≠ id) } :: rest

/-- `deleteUnit` result flag (`{result: true}` vs the thrown
`NotFoundError`). -/
inductive DeleteUnitResult where
  | notFound
  | ok
deriving DecidableEq, Repr

/-- `UnitController.deleteUnit`: look the unit up, pull its id via
`Lecture.update({}, {$pull: …})`, then `unit.remove()` (which fires the
`pre('remove')` hook of the `file` discriminator before the record is
deleted).  The third component lists the deletion attempts with the
outcome the filesystem oracle assigned to each; nothing downstream
consumes those outcomes. -/
def deleteUnit (fs : String → Bool) (db : UnitDb) (id : String) :
    DeleteUnitResult × UnitDb × List (String × Bool) :=
  match findUnit db id with
  | none => (DeleteUnitResult.notFound, db, [])
  | some u =>
    (DeleteUnitResult.ok,
     { units := db.units.filter (fun v => v._id ≠ id),
       lectures := lectureUpdatePull db.lectures id },
     fileUnitPreRemove fs u.files)

/-! ## Concrete fixtures used by the closed theorems -/

/-- Ada Lovelace, uid `al1`: matches the whitelist entry of `courseWL`
after lower-casing. -/
def ada : User :=
  { _id := "u1", uid := "al1",
    profile := { firstName := "Ada", lastName := "Lovelace" },
    role := "student" }

/-- Same name as `ada`, different uid. -/
def ada2 : User :=
  { _id := "u2", uid := "al2",
    profile := { firstName := "Ada", lastName := "Lovelace" },
    role := "student" }

/-- An active whitelist course whose single entry is Ada's normalized
identity triple; nobody is enrolled yet. -/
def courseWL : Course :=
  { _id := "c1", active := true, enrollType := "whitelist", accessKey := none,
    whitelist := [{ firstName := "ada", lastName := "lovelace", uid := "al1" }],
    students := [], teachers := [], courseAdmin := "t1", lectures := [] }

/-- The same whitelist course with Ada already a member. -/
def courseWLMember : Course :=
  { courseWL with _id := "c2", students := ["u1"] }

/-- A free course with Ada already a member. -/
def courseFreeMember : Course :=
  { _id := "c3", active := true, enrollType := "free", accessKey := none,
    whitelist := [], students := ["u1"], teachers := [],
    courseAdmin := "t1", lectures := [] }

/-- A free, inactive course with no members. -/
def courseInactive : Course :=
  { _id := "c4", active := false, enrollType := "free", accessKey := none,
    whitelist := [], students := [], teachers := [],
    courseAdmin := "t1", lectures := [] }

/-- A free course that nevertheless carries an access key. -/
def courseFreeKeyed : Course :=
  { _id := "c5", active := true, enrollType := "free",
    accessKey := some "s3cr3t", whitelist := [], students := [],
    teachers := [], courseAdmin := "t1", lectures := [] }

/-- An access-key course with key `s3cr3t` and no members. -/
def courseAK : Course :=
  { _id := "c6", active := true, enrollType := "accesskey",
    accessKey := some "s3cr3t", whitelist := [], students := [],
    teachers := [], courseAdmin := "t1", lectures := [] }

/-- An access-key course whose key is set to the empty string. -/
def courseEmptyKey : Course :=
  { _id := "c10", active := true, enrollType := "accesskey",
    accessKey := some "", whitelist := [], students := [],
    teachers := [], courseAdmin := "t1", lectures := [] }

/-- A course with two enrolled students, used by the leave theorems. -/
def courseTwoStudents : Course :=
  { _id := "c7", active := true, enrollType := "free", accessKey := none,
    whitelist := [], students := ["s1", "s2"], teachers := [],
    courseAdmin := "t1", lectures := [] }

/-- A student enrolled in `courseTwoStudents` at position 0. -/
def studentFirst : User :=
  { _id := "s1", uid := "s1",
    profile := { firstName := "Stu", lastName := "One" }, role := "student" }

/-- A student who is not enrolled in `courseTwoStudents`. -/
def studentOutsider : User :=
  { _id := "s3", uid := "s3",
    profile := { firstName := "Stu", lastName := "Three" }, role := "student" }

/-- File unit `u1` owning two file records. -/
def unitU1 : FileUnitDoc :=
  { _id := "u1", fileUnitType := "file",
    files := [{ path := "uploads/aaa.pdf", name := "aaa.pdf",
                fileAlias := "slides.pdf", size := 10 },
              { path := "uploads/bbb.mp4", name := "bbb.mp4",
                fileAlias := "video.mp4", size := 20 }] }

/-- Two lectures; the second one owns `u1`. -/
def lectureOther : Lecture := { _id := "l1", units := ["u9"] }

def lectureOwner : Lecture := { _id := "l2", units := ["u1"] }

/-- The unit database for the `deleteUnit` theorem: the lecture owning
`u1` is not the first lecture of the collection. -/
def unitDb : UnitDb :=
  { units := [unitU1], lectures := [lectureOther, lectureOwner] }

/-- A lecture holding a code-kata unit with a stored solution and a
free-text unit. -/
def kataLecture : PopulatedLecture :=
  { _id := "lec1",
    units := [CUnit.codeKata "k1" (some "solution"),
              CUnit.other "ft1" "free-text"] }

/-- An active free course containing `kataLecture`, with `ada` enrolled. -/
def courseKata : Course :=
  { _id := "c8", active := true, enrollType := "free", accessKey := none,
    whitelist := [], students := ["u1"], teachers := [],
    courseAdmin := "t1", lectures := [kataLecture] }

/-- `courseKata` as a student sees it: the kata payload emptied. -/
def courseKataProjected : Course :=
  { courseKata with
    lectures := [{ _id := "lec1",
                   units := [CUnit.codeKata "k1" none,
                             CUnit.other "ft1" "free-text"] }] }

/-- An active free course with two students, a teacher and an admin. -/
def courseForList : Course :=
  { _id := "c9", active := true, enrollType := "free", accessKey := none,
    whitelist := [], students := ["u1", "u2"], teachers := ["t2"],
    courseAdmin := "t1", lectures := [] }

/-! ## Claim theorems -/

/-- C1: counter to the claim, a whitelist enrollment whose acting user
matches a whitelist entry does NOT proceed to the membership step: the
whitelist branch of `enrollStudent` returns the inner promise, whose
callback produces no value on a match, so the pipeline resolves with
`undefined` and the student is never pushed onto `course.students` (no
`saved` outcome).  The rejection half of the claim does hold: a user whose
uid is not listed is rejected with the not-on-whitelist error. -/
theorem enrollStudent_whitelist_match_never_enrolls :
    enrollStudent (some courseWL) none ada = EnrollResult.resolvedUndefined
    ∧ enrollStudent (some courseWL) none ada2
        = EnrollResult.forbidden ErrorCode.notOnWhitelist := by
  exact ⟨rfl, rfl⟩

/-- C2: counter to the claim, `leaveStudent` tests `index !== 0`: for a
user who is NOT enrolled (`indexOf` gives `-1`) it still splices, and
`splice(-1, 1)` removes the LAST enrolled student (`s2`) and saves; for a
user enrolled at position 0 it does nothing at all.  Only a student found
at a positive index is correctly removed. -/
theorem leaveStudent_indexCheck_bug :
    leaveStudent (some courseTwoStudents) studentOutsider
      = LeaveResult.saved { courseTwoStudents with students := ["s1"] }
    ∧ leaveStudent (some courseTwoStudents) studentFirst
      = LeaveResult.course courseTwoStudents := by
  exact ⟨rfl, rfl⟩

/-- C3: counterexample to the claim as stated — `enrollStudent` never
looks at `course.active`, so an enrollment attempt on an inactive free
course is not rejected: the student is pushed and the course saved,
changing the membership set. -/
theorem enrollStudent_inactive_not_rejected :
    courseInactive.active = false
    ∧ enrollStudent (some courseInactive) none studentOutsider
        = EnrollResult.saved { courseInactive with students := ["s3"] } := by
  exact ⟨rfl, rfl⟩

/-- C4: counterexample to the claim as stated — the access-key comparison
of `enrollStudent` sits in the `else if` of the whitelist test, so it
applies to every non-whitelist course: a `free` course that carries an
access key rejects a mismatched submission with the invalid-access-key
error instead of proceeding unconditionally. -/
theorem enrollStudent_free_accessKey_rejected :
    courseFreeKeyed.enrollType = "free"
    ∧ enrollStudent (some courseFreeKeyed) (some "wrong") ada
        = EnrollResult.forbidden ErrorCode.accessKey := by
  exact ⟨rfl, rfl⟩

/-- C6: counter to the claim for whitelist courses — when the acting user
is already in `course.students` AND matches the whitelist, the early
`return` of the whitelist branch makes the pipeline resolve with
`undefined` instead of answering with the unchanged course object; the
already-enrolled outcome (unchanged course returned, nothing saved, no
duplicate) is produced only on the non-whitelist path, as the free-course
conjunct shows. -/
theorem enrollStudent_alreadyEnrolled_whitelist_bug :
    courseWLMember.students = ["u1"]
    ∧ enrollStudent (some courseWLMember) none ada
        = EnrollResult.resolvedUndefined
    ∧ enrollStudent (some courseFreeMember) none ada
        = EnrollResult.course courseFreeMember := by
  exact ⟨rfl, rfl, rfl⟩

/-- C7: with every deletion failing (oracle constantly `false`), deleting
unit `u1` (which owns K = 2 files) still makes exactly 2 deletion attempts
and deletes the unit record — but `Lecture.update({}, {$pull: …})`
updates only the FIRST lecture document, so the id `u1` survives in its
owning lecture's `units` list, contrary to the claim.  A non-existent id
is answered with `notFound` and changes nothing. -/
theorem deleteUnit_lecture_pull_bug :
    deleteUnit (fun _ => false) unitDb "u1"
      = (DeleteUnitResult.ok,
         { units := [], lectures := [lectureOther, lectureOwner] },
         [("uploads/aaa.pdf", false), ("uploads/bbb.mp4", false)])
    ∧ lectureOwner.units = ["u1"]
    ∧ deleteUnit (fun _ => false) unitDb "zz"
        = (DeleteUnitResult.notFound, unitDb, []) := by
  exact ⟨rfl, rfl, rfl⟩

/-! ## General theorems -/

/-- Overwrite the `active` flag of a course. -/
def setActive (b : Bool) (course : Course) : Course := { course with active := b }

/-- Apply a course transformation under the result constructors that carry
a course. -/
def mapEnrollCourse (f : Course → Course) : EnrollResult → EnrollResult
  | EnrollResult.saved c => EnrollResult.saved (f c)
  | EnrollResult.course c => EnrollResult.course (f c)
  | r => r

/-- C3 (amended): `enrollStudent` never consults `course.active` — the
outcome for a course with the flag overwritten to any value is the outcome
for the original course, with the same overwrite on the carried course.
In particular an inactive course is processed exactly like an active one
and no course-inactive rejection exists. -/
theorem enrollStudent_ignores_active (c : Course) (b : Bool)
    (d : Option String) (u : User) :
    enrollStudent (some (setActive b c)) d u
      = mapEnrollCourse (setActive b) (enrollStudent (some c) d u) := by
  dsimp only [enrollStudent, setActive, membershipStep, accessKeyTruthy]
  split_ifs <;> rfl

/-- C4 (amended): for a `free` course the whitelist branch is skipped, but
the access-key comparison still applies: enrollment proceeds to the
membership step unless the course carries a (truthy) access key different
from the submitted one, in which case it is rejected with the
invalid-access-key error.  When `course.accessKey` is unset, free
enrollment is unconditional, as the claim stated. -/
theorem enrollStudent_free_policy (c : Course) (d : Option String) (u : User)
    (hfree : c.enrollType = "free") :
    enrollStudent (some c) d u =
      if accessKeyTruthy c ∧ c.accessKey ≠ d then
        EnrollResult.forbidden ErrorCode.accessKey
      else
        membershipStep c u := by
  have hnw : ¬ (c.enrollType = "whitelist") := by rw [hfree]; decide
  simp [enrollStudent, hnw]

/-- Witness for `enrollStudent_free_policy` at a keyed free course and a
mismatched submission. -/
theorem enrollStudent_free_policy_witness :
    courseFreeKeyed.enrollType = "free"
    ∧ enrollStudent (some courseFreeKeyed) (some "wrong") ada
        = (if accessKeyTruthy courseFreeKeyed
              ∧ courseFreeKeyed.accessKey ≠ some "wrong" then
             EnrollResult.forbidden ErrorCode.accessKey
           else
             membershipStep courseFreeKeyed ada) :=
  ⟨rfl, enrollStudent_free_policy courseFreeKeyed (some "wrong") ada rfl⟩

/-- C5: counterexample to the claim as stated — an `accesskey` course
whose `accessKey` IS set, namely to the empty string, admits a mismatched
submission: the guard `course.accessKey && course.accessKey !== data.accessKey`
short-circuits on the falsy empty string, so enrollment proceeds to the
membership step (the student is pushed and saved) instead of rejecting
with the invalid-access-key error. -/
theorem enrollStudent_accesskey_empty_admits :
    courseEmptyKey.enrollType = "accesskey"
    ∧ courseEmptyKey.accessKey = some ""
    ∧ enrollStudent (some courseEmptyKey) (some "wrong") ada
        = EnrollResult.saved { courseEmptyKey with students := ["u1"] } := by
  exact ⟨rfl, rfl, rfl⟩

/-- C5 (amended): under the `accesskey` policy, a key that is unset OR set
to the empty string (JavaScript-falsy) lets any enrollment proceed to the
membership step; a key set to a non-empty string lets enrollment proceed
exactly when the submitted key is string-equal to it, and otherwise
rejects with the invalid-access-key error. -/
theorem enrollStudent_accesskey_policy (c : Course) (d : Option String)
    (u : User) (hak : c.enrollType = "accesskey") :
    ((c.accessKey = none ∨ c.accessKey = some "") →
        enrollStudent (some c) d u = membershipStep c u)
    ∧ ∀ k, c.accessKey = some k → k ≠ "" →
        ((d = some k → enrollStudent (some c) d u = membershipStep c u)
         ∧ (d ≠ some k → enrollStudent (some c) d u
              = EnrollResult.forbidden ErrorCode.accessKey)) := by
  have hnw : ¬ (c.enrollType = "whitelist") := by rw [hak]; decide
  constructor
  · intro hfalsy
    have ht : accessKeyTruthy c = false := by
      cases hfalsy with
      | inl hnone => simp [accessKeyTruthy, hnone]
      | inr hempty => simp [accessKeyTruthy, hempty]
    simp [enrollStudent, hnw, ht]
  · intro k hk hne
    have ht : accessKeyTruthy c = true := by simp [accessKeyTruthy, hk, hne]
    constructor
    · intro hd
      have hkeq : ¬ (c.accessKey ≠ d) := by rw [hk, hd]; simp
      simp [enrollStudent, hnw, hkeq]
    · intro hd
      have hkne : c.accessKey ≠ d := by rw [hk]; exact fun he => hd he.symm
      simp [enrollStudent, hnw, ht, hkne]

/-- Witness for `enrollStudent_accesskey_policy`: the spec scenario with
key `s3cr3t` — a wrong submission is rejected, the right one reaches the
membership step — and the empty-key course, where any submission reaches
the membership step. -/
theorem enrollStudent_accesskey_policy_witness :
    courseAK.enrollType = "accesskey"
    ∧ enrollStudent (some courseAK) (some "wrong") ada
        = EnrollResult.forbidden ErrorCode.accessKey
    ∧ enrollStudent (some courseAK) (some "s3cr3t") ada
        = membershipStep courseAK ada
    ∧ enrollStudent (some courseEmptyKey) (some "wrong") ada
        = membershipStep courseEmptyKey ada := by
  refine ⟨rfl, ?_, ?_, ?_⟩
  · exact ((enrollStudent_accesskey_policy courseAK (some "wrong") ada
      rfl).2 "s3cr3t" rfl (by decide)).2 (by decide)
  · exact ((enrollStudent_accesskey_policy courseAK (some "s3cr3t") ada
      rfl).2 "s3cr3t" rfl (by decide)).1 rfl
  · exact (enrollStudent_accesskey_policy courseEmptyKey (some "wrong") ada
      rfl).1 (Or.inr rfl)

/-- C8: the `files` setter makes exactly one deletion attempt for every
previously stored file whose `name` is absent from the incoming list (the
attempted paths, in order, are the paths of exactly those files) and none
for a retained name; and whatever outcomes the filesystem oracle assigns,
the field always takes the incoming list — deletion failures cannot
surface to the caller of the replacement. -/
theorem filesSetter_deletion_diff (fs : String → Bool)
    (oldFiles newFiles : List FileRecord) :
    (filesSetter fs oldFiles newFiles).2 = newFiles
    ∧ (setterDeletions fs oldFiles newFiles).map Prod.fst
        = (oldFiles.filter
            (fun f => !(newFiles.any (fun newFile => newFile.name == f.name)))).map
            (fun f => f.path) := by
  refine ⟨rfl, ?_⟩
  induction oldFiles with
  | nil => rfl
  | cons f rest ih =>
    cases h : newFiles.any (fun newFile => newFile.name == f.name) <;>
      simp [setterDeletions, h, List.filter_cons, ih]

/-- Every unit passes through `projectUnit` unchanged for a non-student. -/
theorem projectUnit_nonstudent (u : User) (hu : ¬ (u.role = "student"))
    (x : CUnit) : projectUnit u x = x := by
  cases x with
  | codeKata i code => simp [projectUnit, hu]
  | other i t => rfl

/-- C9: whenever `getCourse` answers a student, every `code-kata` unit of
every lecture of the answered course has its `code` payload emptied, and
for a non-student the answered course is exactly the stored one; the read
is a pure projection of the stored list, which is never written. -/
theorem getCourse_kata_suppressed (db : List Course) (cid : String) (u : User)
    (c : Course) (hres : getCourse db cid u = some c) :
    (u.role = "student" →
      ∀ l ∈ c.lectures, ∀ un ∈ l.units,
        ∀ i code, un = CUnit.codeKata i code → code = none)
    ∧ (¬ (u.role = "student") → ∃ c0 ∈ db, c0._id = cid ∧ c = c0) := by
  unfold getCourse at hres
  cases hfind : db.find? (fun c => userReadConditions u c && c._id == cid) with
  | none => rw [hfind] at hres; exact absurd hres (by simp)
  | some c0 =>
    rw [hfind] at hres
    have hc : c = { c0 with
        lectures := c0.lectures.map (fun lecture =>
          { lecture with units := lecture.units.map (projectUnit u) }) } :=
      (Option.some.inj hres).symm
    have hmem : c0 ∈ db := List.mem_of_find?_eq_some hfind
    have hid : c0._id = cid := by
      have hp := List.find?_some hfind
      rw [Bool.and_eq_true] at hp
      exact eq_of_beq hp.2
    constructor
    · intro hst l hl un hun i code hk
      rw [hc] at hl
      simp only [List.mem_map] at hl
      obtain ⟨l0, _, hl0⟩ := hl
      rw [← hl0] at hun
      simp only [List.mem_map] at hun
      obtain ⟨un0, _, hun0⟩ := hun
      cases un0 with
      | codeKata i0 code0 =>
        rw [← hun0, projectUnit, if_pos hst] at hk
        cases hk
        rfl
      | other i0 t0 =>
        rw [← hun0] at hk
        exact absurd hk (by simp [projectUnit])
    · intro hns
      have hmapu : ∀ us : List CUnit, us.map (projectUnit u) = us := by
        intro us
        induction us with
        | nil => rfl
        | cons a t iht => simp [projectUnit_nonstudent u hns, iht]
      have hmapl : c0.lectures.map (fun lecture =>
          { lecture with units := lecture.units.map (projectUnit u) })
            = c0.lectures := by
        induction c0.lectures with
        | nil => rfl
        | cons a t iht => simp [hmapu, iht]
      refine ⟨c0, hmem, hid, ?_⟩
      rw [hc, hmapl]

/-- Witness for `getCourse_kata_suppressed`: a concrete course with one
code-kata unit (solution `"solution"`) read by the enrolled student `ada`
comes back with the payload emptied. -/
theorem getCourse_kata_suppressed_witness :
    getCourse [courseKata] "c8" ada = some courseKataProjected
    ∧ (∀ l ∈ courseKataProjected.lectures, ∀ un ∈ l.units,
        ∀ i code, un = CUnit.codeKata i code → code = none) := by
  refine ⟨rfl, ?_⟩
  exact (getCourse_kata_suppressed [courseKata] "c8" ada
    courseKataProjected rfl).1 rfl

/-- C10: a course-list query by a student answers only objects whose
`courseAdmin` field has been deleted and whose `students` list contains at
most the querying student's own id — no other student's identity appears. -/
theorem getCourses_student_privacy (db : List Course) (u : User)
    (h : u.role = "student") :
    ∀ v ∈ getCourses db u,
      v.courseAdmin = none ∧ ∀ s ∈ v.students, s = u._id := by
  intro v hv
  unfold getCourses at hv
  rw [List.mem_map] at hv
  obtain ⟨course, _, hproj⟩ := hv
  rw [← hproj]
  simp only [h, if_pos]
  refine ⟨trivial, ?_⟩
  intro s hs
  simp only [List.mem_filter] at hs
  exact eq_of_beq hs.2

/-- Witness for `getCourses_student_privacy`: a course with two students
and a course admin, listed by student `u1`, comes back with no admin and
only the querying student's own id. -/
theorem getCourses_student_privacy_witness :
    getCourses [courseForList] ada
      = [{ _id := "c9", active := true, enrollType := "free",
           courseAdmin := none, students := ["u1"], teachers := ["t2"],
           lectures := [] }]
    ∧ ∀ v ∈ getCourses [courseForList] ada,
        v.courseAdmin = none ∧ ∀ s ∈ v.students, s = ada._id :=
  ⟨rfl, getCourses_student_privacy [courseForList] ada rfl⟩

end Geli
